import Mathlib

/-!
Verification of the cohort-membership / authorization core of the Baby-Brigade
application (Express + Drizzle storage layer).  The storage methods of
`DatabaseStorage` and the HTTP route handlers are shallowly embedded as pure
state transitions over a `DB` record holding the relational tables as lists
(rows in insertion order, matching the sequential single-writer execution
model of the server).  Dates are modelled as proleptic-Gregorian civil dates
interpreted in UTC, matching `new Date("YYYY-MM-DD")` plus the server running
with a UTC clock.
-/

namespace BabyBrigade

/-- A calendar date (proleptic Gregorian, interpreted in UTC). -/
structure CivilDate where
  year : Nat
  month : Nat
  day : Nat
deriving DecidableEq, Repr

/-- Gregorian leap-year rule, as implemented by the JavaScript `Date` object. -/
def isLeapYear (y : Nat) : Bool :=
  (y % 4 == 0 && y % 100 != 0) || y % 400 == 0

/-- Number of days in a month of a given year. -/
def daysInMonth (y m : Nat) : Nat :=
  if m == 2 then (if isLeapYear y then 29 else 28)
  else if m == 4 || m == 6 || m == 9 || m == 11 then 30
  else 31

/-- Days in the months of year `y` strictly before month `m`. -/
def daysBeforeMonth (y m : Nat) : Nat :=
  (List.range (m - 1)).foldl (fun acc i => acc + daysInMonth y (i + 1)) 0

/-- Day count of a civil date from the proleptic-Gregorian epoch 0001-01-01
(that date maps to 0). -/
def toRataDie (d : CivilDate) : Nat :=
  (d.year - 1) * 365 + ((d.year - 1) / 4 - (d.year - 1) / 100 + (d.year - 1) / 400)
    + daysBeforeMonth d.year d.month + (d.day - 1)

/-- Day of the week as returned by JavaScript `Date.prototype.getDay` in UTC:
0 = Sunday, ..., 6 = Saturday.  (1970-01-01 was a Thursday, day 4.) -/
def dayOfWeek (d : CivilDate) : Nat :=
  (toRataDie d + 1) % 7

/-- The calendar day before `d`. -/
def prevDay (d : CivilDate) : CivilDate :=
  if d.day > 1 then ⟨d.year, d.month, d.day - 1⟩
  else if d.month > 1 then ⟨d.year, d.month - 1, daysInMonth d.year (d.month - 1)⟩
  else ⟨d.year - 1, 12, 31⟩

/-- Subtract `n` days from a civil date, rolling over month and year
boundaries exactly as JavaScript `Date.prototype.setDate` does for
non-positive day numbers. -/
def subDays (d : CivilDate) : Nat → CivilDate
  | 0 => d
  | n + 1 => subDays (prevDay d) n

/-- The week-start computed by `createBaby`:
`birthWeek.setDate(birthDate.getDate() - birthDate.getDay())`, i.e. the
Sunday on or before the birth date. -/
def birthWeekOf (d : CivilDate) : CivilDate :=
  subDays d (dayOfWeek d)

/-- date-fns `startOfMonth`: first day of the date\x27s month. -/
def startOfMonth (d : CivilDate) : CivilDate :=
  ⟨d.year, d.month, 1⟩

/-- date-fns `addMonths`: add `n` months, clamping the day to the length of
the target month. -/
def addMonths (d : CivilDate) (n : Nat) : CivilDate :=
  let total := d.month - 1 + n
  let y := d.year + total / 12
  let m := total % 12 + 1
  ⟨y, m, min d.day (daysInMonth y m)⟩

/-- date-fns `endOfMonth`: last day of the date\x27s month. -/
def endOfMonth (d : CivilDate) : CivilDate :=
  ⟨d.year, d.month, daysInMonth d.year d.month⟩

/-- English month name, as produced by
`toLocaleString("default", month: "long")` under the default en-US locale. -/
def monthName : Nat → String
  | 1 => "January"
  | 2 => "February"
  | 3 => "March"
  | 4 => "April"
  | 5 => "May"
  | 6 => "June"
  | 7 => "July"
  | 8 => "August"
  | 9 => "September"
  | 10 => "October"
  | 11 => "November"
  | 12 => "December"
  | _ => ""

/-- Row of the `users` table (`shared/schema.ts`).  `role` is the global role
enum, either "user" or "admin". -/
structure User where
  id : Nat
  username : String
  password : String
  fullName : String
  email : String
  role : String
deriving DecidableEq, Repr

/-- Row of the `cohorts` table.  `startDate`/`endDate` are the optional legacy
birth-week bucketing range (NULL for user-created cohorts). -/
structure Cohort where
  id : Nat
  name : String
  description : Option String
  creatorId : Nat
  startDate : Option CivilDate
  endDate : Option CivilDate
deriving DecidableEq, Repr

/-- Row of the `cohort_memberships` table.  `role` is "member" or
"moderator". -/
structure CohortMembership where
  id : Nat
  userId : Nat
  cohortId : Nat
  role : String
deriving DecidableEq, Repr

/-- Row of the `babies` table. -/
structure Baby where
  id : Nat
  userId : Nat
  name : String
  birthDate : CivilDate
  birthWeek : CivilDate
  cohortId : Nat
deriving DecidableEq, Repr

/-- Row of the `posts` table. -/
structure Post where
  id : Nat
  userId : Nat
  cohortId : Nat
  content : String
  photoUrl : Option String
deriving DecidableEq, Repr

/-- Row of the `upvotes` table. -/
structure Upvote where
  id : Nat
  postId : Nat
  userId : Nat
deriving DecidableEq, Repr

/-- Row of the `password_reset_tokens` table.  `expiresAt` is a millisecond
timestamp; `used` is the 0/1 integer flag of the schema. -/
structure PasswordResetToken where
  id : Nat
  userId : Nat
  token : String
  expiresAt : Nat
  used : Nat
deriving DecidableEq, Repr

/-- The relational store.  Each table is a list of rows in insertion order
(`db.insert` appends); the `next…Id` counters model the serial primary
keys. -/
structure DB where
  users : List User
  cohorts : List Cohort
  memberships : List CohortMembership
  babies : List Baby
  posts : List Post
  upvotes : List Upvote
  resetTokens : List PasswordResetToken
  nextCohortId : Nat
  nextMembershipId : Nat
  nextBabyId : Nat
  nextPostId : Nat
  nextUpvoteId : Nat
  nextTokenId : Nat
deriving DecidableEq, Repr

/-- The empty store with serial counters starting at 1. -/
def emptyDB : DB :=
  ⟨[], [], [], [], [], [], [], 1, 1, 1, 1, 1, 1⟩

/-- `storage.getUserByEmail`: first row of `users` matching the email. -/
def getUserByEmail (s : DB) (email : String) : Option User :=
  s.users.find? (fun u => u.email == email)

/-- `storage.isCohortModerator`: true iff a `cohort_memberships` row exists
with this user, this cohort, and role "moderator". -/
def isCohortModerator (s : DB) (userId cohortId : Nat) : Bool :=
  (s.memberships.find? (fun m =>
    m.userId == userId && m.cohortId == cohortId && m.role == "moderator")).isSome

/-- `storage.createCohortMembership`: insert a membership row. -/
def createCohortMembership (s : DB) (cohortId userId : Nat) (role : String) :
    CohortMembership × DB :=
  let m : CohortMembership := ⟨s.nextMembershipId, userId, cohortId, role⟩
  (m, { s with memberships := s.memberships ++ [m],
               nextMembershipId := s.nextMembershipId + 1 })

/-- `storage.createCohort`: insert the cohort row (no date range), then make
the creator a moderator via `createCohortMembership`. -/
def createCohort (s : DB) (name : String) (description : Option String)
    (creatorId : Nat) : Cohort × DB :=
  let c : Cohort := ⟨s.nextCohortId, name, description, creatorId, none, none⟩
  let s1 : DB := { s with cohorts := s.cohorts ++ [c],
                          nextCohortId := s.nextCohortId + 1 }
  let r := createCohortMembership s1 c.id creatorId "moderator"
  (c, r.2)

/-- Lower bound of the bucketing range computed by `getOrCreateCohort`:
`start = startOfMonth(birthDate)`. -/
def bucketStart (birthDate : CivilDate) : CivilDate :=
  startOfMonth birthDate

/-- Upper bound of the bucketing range computed by `getOrCreateCohort`:
`end = endOfMonth(addMonths(start, 1))`, the last day of the month after
`birthDate`\x27s month. -/
def bucketEnd (birthDate : CivilDate) : CivilDate :=
  endOfMonth (addMonths (startOfMonth birthDate) 1)

/-- The cohort name produced by `getOrCreateCohort` for a bucketing range
starting at `start`: `toLocaleString` month and year followed by " Babies". -/
def bucketName (start : CivilDate) : String :=
  monthName start.month ++ " " ++ toString start.year ++ " Babies"

/-- `storage.getOrCreateCohort` (private helper of the birth-week bucketing
path): compute `start = startOfMonth(birthDate)` and
`end = endOfMonth(addMonths(start, 1))`, look for a cohort whose stored range
equals `(start, end)` exactly, and otherwise insert a new cohort named
"<Month> <Year> Babies" with that range (creatorId 1, the admin user). -/
def getOrCreateCohort (s : DB) (birthDate : CivilDate) : Cohort × DB :=
  let start := bucketStart birthDate
  let e := bucketEnd birthDate
  match s.cohorts.find? (fun c => c.startDate == some start && c.endDate == some e) with
  | some c => (c, s)
  | none =>
    let c : Cohort := ⟨s.nextCohortId, bucketName start, none, 1, some start, some e⟩
    (c, { s with cohorts := s.cohorts ++ [c], nextCohortId := s.nextCohortId + 1 })

/-- `storage.createBaby`: compute the birth week (the Sunday on or before the
birth date, via `setDate(getDate() - getDay())`), feed it to
`getOrCreateCohort`, and insert the baby row pointing at that cohort. -/
def createBaby (s : DB) (name : String) (birthDate : CivilDate) (userId : Nat) :
    Baby × DB :=
  let birthWeek := birthWeekOf birthDate
  let r := getOrCreateCohort s birthWeek
  let b : Baby := ⟨r.2.nextBabyId, userId, name, birthDate, birthWeek, r.1.id⟩
  (b, { r.2 with babies := r.2.babies ++ [b], nextBabyId := r.2.nextBabyId + 1 })

/-- `storage.getPost`: first row of `posts` with this id. -/
def getPost (s : DB) (id : Nat) : Option Post :=
  s.posts.find? (fun p => p.id == id)

/-- `storage.createPost`: insert a post row authored by `userId`. -/
def createPost (s : DB) (content : String) (cohortId : Nat)
    (photoUrl : Option String) (userId : Nat) : Post × DB :=
  let p : Post := ⟨s.nextPostId, userId, cohortId, content, photoUrl⟩
  (p, { s with posts := s.posts ++ [p], nextPostId := s.nextPostId + 1 })

/-- `storage.updatePost`: return `none` (leaving the store unchanged) if the
post does not exist or belongs to a different user; otherwise update the
rows matching `(id, userId)` (the photo only when one was supplied, where
`some none` clears it) and return the updated row. -/
def updatePost (s : DB) (id : Nat) (content : String) (userId : Nat)
    (photoUrl : Option (Option String)) : Option Post × DB :=
  match getPost s id with
  | none => (none, s)
  | some p =>
    if p.userId ≠ userId then (none, s)
    else
      let setRow := fun (q : Post) =>
        { q with content := content,
                 photoUrl := match photoUrl with
                   | some u => u
                   | none => q.photoUrl }
      let s1 : DB := { s with posts := s.posts.map (fun q =>
        if q.id == id && q.userId == userId then setRow q else q) }
      ((s1.posts.filter (fun q => q.id == id && q.userId == userId)).head?, s1)

/-- `storage.deletePost`: return `false` (store unchanged) if the post does
not exist or belongs to a different user; otherwise delete the rows matching
`(id, userId)` and return `true`. -/
def deletePost (s : DB) (id : Nat) (userId : Nat) : Bool × DB :=
  match getPost s id with
  | none => (false, s)
  | some p =>
    if p.userId ≠ userId then (false, s)
    else (true, { s with posts := s.posts.filter (fun q =>
      !(q.id == id && q.userId == userId)) })

/-- `storage.hasUserUpvoted`: true iff an upvote row exists for the pair. -/
def hasUserUpvoted (s : DB) (postId userId : Nat) : Bool :=
  (s.upvotes.find? (fun u => u.postId == postId && u.userId == userId)).isSome

/-- `storage.createUpvote`: throw "User already upvoted this post" when a row
for the pair already exists, otherwise insert the row. -/
def createUpvote (s : DB) (postId userId : Nat) : Except String (Upvote × DB) :=
  if hasUserUpvoted s postId userId then
    Except.error "User already upvoted this post"
  else
    let u : Upvote := ⟨s.nextUpvoteId, postId, userId⟩
    Except.ok (u, { s with upvotes := s.upvotes ++ [u],
                           nextUpvoteId := s.nextUpvoteId + 1 })

/-- `storage.removeUpvote`: unconditionally delete the rows for the pair and
return `true`. -/
def removeUpvote (s : DB) (postId userId : Nat) : Bool × DB :=
  (true, { s with upvotes := s.upvotes.filter (fun u =>
    !(u.postId == postId && u.userId == userId)) })

/-- `storage.createPasswordResetToken`: insert a token row expiring one hour
(3600000 ms) after `now`, with `used = 0`.  The random UUID produced by
`randomUUID()` is supplied by the caller as `token`. -/
def createPasswordResetToken (s : DB) (userId : Nat) (token : String)
    (now : Nat) : String × DB :=
  let t : PasswordResetToken := ⟨s.nextTokenId, userId, token, now + 3600000, 0⟩
  (token, { s with resetTokens := s.resetTokens ++ [t],
                   nextTokenId := s.nextTokenId + 1 })

/-- `storage.getPasswordResetTokenByToken`: first token row with this token
value that has not expired (`expiresAt > now`) and is unused (`used = 0`). -/
def getPasswordResetTokenByToken (s : DB) (token : String) (now : Nat) :
    Option PasswordResetToken :=
  s.resetTokens.find? (fun t =>
    t.token == token && decide (now < t.expiresAt) && t.used == 0)

/-- `storage.markTokenAsUsed`: set `used = 1` on the rows with this id. -/
def markTokenAsUsed (s : DB) (tokenId : Nat) : DB :=
  { s with resetTokens := s.resetTokens.map (fun t =>
      if t.id == tokenId then { t with used := 1 } else t) }

/-- `storage.updateUserPassword`: overwrite the stored password hash of the
rows with this user id. -/
def updateUserPassword (s : DB) (userId : Nat) (hashedPassword : String) : DB :=
  { s with users := s.users.map (fun u =>
      if u.id == userId then { u with password := hashedPassword } else u) }

/-- `storage.getCohortMembershipById`: first membership row with this id. -/
def getCohortMembershipById (s : DB) (id : Nat) : Option CohortMembership :=
  s.memberships.find? (fun m => m.id == id)

/-- `storage.updateCohortMembershipRole`: set the role on the rows with this
id and return the updated row (if any). -/
def updateCohortMembershipRole (s : DB) (id : Nat) (role : String) :
    Option CohortMembership × DB :=
  let s1 : DB := { s with memberships := s.memberships.map (fun m =>
    if m.id == id then { m with role := role } else m) }
  ((s1.memberships.filter (fun m => m.id == id)).head?, s1)

/-- `storage.deleteCohortMembership`: delete the rows with this id and return
`true` unconditionally. -/
def deleteCohortMembership (s : DB) (id : Nat) : Bool × DB :=
  (true, { s with memberships := s.memberships.filter (fun m => !(m.id == id)) })

/-- JavaScript `String.prototype.trim`: strip whitespace from both ends
(structural definition over the character list). -/
def jsTrim (s : String) : String :=
  String.mk (((s.data.dropWhile Char.isWhitespace).reverse.dropWhile
    Char.isWhitespace).reverse)

/-- Outcome of a route handler: a JSON success payload with its HTTP status,
or an error status with the JSON error message. -/
inductive ApiResult (α : Type) where
  | ok (status : Nat) (value : α)
  | err (status : Nat) (message : String)
deriving DecidableEq, Repr

/-- `POST /api/cohorts` (authenticated): parse name/description and call
`createCohort` with the session user as creator. -/
def postCohortsRoute (s : DB) (requester : User) (name : String)
    (description : Option String) : ApiResult Cohort × DB :=
  let r := createCohort s name description requester.id
  (ApiResult.ok 201 r.1, r.2)

/-- `GET /api/cohorts/:id/is-moderator` (authenticated): returns the bare
boolean `isCohortModerator(sessionUser, cohortId)`. -/
def getIsModeratorRoute (s : DB) (requester : User) (cohortId : Nat) :
    ApiResult Bool × DB :=
  (ApiResult.ok 200 (isCohortModerator s requester.id cohortId), s)

/-- `POST /api/cohort-membership` (authenticated): first the authorization
check on the raw body cohort id (403 unless the requester moderates that
cohort or is a global admin), then the zod parse (the role, when present,
must be "member" or "moderator", else the handler catches the parse error
and answers 400), then the insert with role defaulting to "member". -/
def postCohortMembershipRoute (s : DB) (requester : User) (cohortId userId : Nat)
    (role : Option String) : ApiResult CohortMembership × DB :=
  if !(isCohortModerator s requester.id cohortId) && requester.role != "admin" then
    (ApiResult.err 403 "Only moderators and admins can add members to a cohort", s)
  else
    match role with
    | some r =>
      if r != "member" && r != "moderator" then
        (ApiResult.err 400 "Invalid cohort membership data", s)
      else
        let rr := createCohortMembership s cohortId userId r
        (ApiResult.ok 201 rr.1, rr.2)
    | none =>
      let rr := createCohortMembership s cohortId userId "member"
      (ApiResult.ok 201 rr.1, rr.2)

/-- `PUT /api/cohort-membership/:id` (authenticated): 400 when the body role
is missing or not one of the two enum values; 404 when no membership has the
id; 403 unless the requester moderates the membership\x27s cohort or is a
global admin; otherwise update the role. -/
def putCohortMembershipRoute (s : DB) (requester : User) (membershipId : Nat)
    (role : Option String) : ApiResult (Option CohortMembership) × DB :=
  match role with
  | none => (ApiResult.err 400 "Invalid role", s)
  | some r =>
    if r != "member" && r != "moderator" then
      (ApiResult.err 400 "Invalid role", s)
    else
      match getCohortMembershipById s membershipId with
      | none => (ApiResult.err 404 "Membership not found", s)
      | some membership =>
        if !(isCohortModerator s requester.id membership.cohortId)
            && requester.role != "admin" then
          (ApiResult.err 403 "Only moderators and admins can update membership roles", s)
        else
          let rr := updateCohortMembershipRole s membershipId r
          (ApiResult.ok 200 rr.1, rr.2)

/-- `DELETE /api/cohort-membership/:id` (authenticated): 404 when no
membership has the id; 403 unless the requester moderates the membership\x27s
cohort or is a global admin; otherwise delete it. -/
def deleteCohortMembershipRoute (s : DB) (requester : User) (membershipId : Nat) :
    ApiResult Bool × DB :=
  match getCohortMembershipById s membershipId with
  | none => (ApiResult.err 404 "Membership not found", s)
  | some membership =>
    if !(isCohortModerator s requester.id membership.cohortId)
        && requester.role != "admin" then
      (ApiResult.err 403 "Only moderators and admins can remove members from a cohort", s)
    else
      let rr := deleteCohortMembership s membershipId
      (ApiResult.ok 200 rr.1, rr.2)

/-- `POST /api/posts` (authenticated): the zod `insertPostSchema` only
requires `content` to be a string (no emptiness refinement), so the handler
inserts whatever content it is given and answers 201. -/
def postPostsRoute (s : DB) (requester : User) (content : String)
    (cohortId : Nat) (photoUrl : Option String) : ApiResult Post × DB :=
  let r := createPost s content cohortId photoUrl requester.id
  (ApiResult.ok 201 r.1, r.2)

/-- `PUT /api/posts/:id` (authenticated): 400 when the new content is blank
after trimming; otherwise `updatePost`, answering 404 with the conflated
not-found-or-forbidden message when it yields nothing. -/
def putPostRoute (s : DB) (requester : User) (postId : Nat) (content : String)
    (photoUrl : Option (Option String)) : ApiResult Post × DB :=
  if jsTrim content == "" then
    (ApiResult.err 400 "Post content cannot be empty", s)
  else
    let r := updatePost s postId content requester.id photoUrl
    match r.1 with
    | none =>
      (ApiResult.err 404 "Post not found or you don\x27t have permission to edit it", r.2)
    | some p => (ApiResult.ok 200 p, r.2)

/-- `DELETE /api/posts/:id` (authenticated): `deletePost`, answering 404 with
the conflated not-found-or-forbidden message when it returns false. -/
def deletePostRoute (s : DB) (requester : User) (postId : Nat) :
    ApiResult Bool × DB :=
  let r := deletePost s postId requester.id
  if !r.1 then
    (ApiResult.err 404 "Post not found or you don\x27t have permission to delete it", r.2)
  else
    (ApiResult.ok 200 true, r.2)

/-- `POST /api/upvotes` (authenticated): `createUpvote`, mapping the
already-upvoted error to 409 and any other failure to 400. -/
def postUpvotesRoute (s : DB) (requester : User) (postId : Nat) :
    ApiResult Upvote × DB :=
  match createUpvote s postId requester.id with
  | Except.error msg =>
    if msg == "User already upvoted this post" then
      (ApiResult.err 409 "You have already upvoted this post", s)
    else
      (ApiResult.err 400 "Invalid upvote data", s)
  | Except.ok r => (ApiResult.ok 201 r.1, r.2)

/-- `DELETE /api/posts/:id/upvotes` (authenticated): 404 when the pair has no
upvote row, otherwise delete it. -/
def deleteUpvoteRoute (s : DB) (requester : User) (postId : Nat) :
    ApiResult Bool × DB :=
  if !(hasUserUpvoted s postId requester.id) then
    (ApiResult.err 404 "You have not upvoted this post", s)
  else
    let r := removeUpvote s postId requester.id
    (ApiResult.ok 200 true, r.2)

/-- Response of `POST /api/forgot-password`: status, generic message, and the
reset token that the handler currently also places in the response body when
the account exists (the code carries a TODO to email it instead). -/
structure ForgotPasswordResponse where
  status : Nat
  message : String
  token : Option String
deriving DecidableEq, Repr

/-- `POST /api/forgot-password`: always status 200 with the same generic
message; when the email belongs to an account, additionally issues a
one-hour single-use token and returns it in the body.  The random UUID and
the clock are supplied as `genToken` and `now`. -/
def forgotPasswordRoute (s : DB) (email : String) (genToken : String)
    (now : Nat) : ForgotPasswordResponse × DB :=
  match getUserByEmail s email with
  | none =>
    (⟨200, "If an account with that email exists, a password reset link has been sent.",
      none⟩, s)
  | some user =>
    let r := createPasswordResetToken s user.id genToken now
    (⟨200, "If an account with that email exists, a password reset link has been sent.",
      some r.1⟩, r.2)

/-- `POST /api/reset-password`: the zod `resetPasswordSchema` requires a
password of at least 8 characters (modelled by the length test; the
token-format part of the parse is identical across calls with the same token
string, so it is immaterial to re-use behavior); then 400 when no live
unused row matches the token, otherwise rotate the password and mark the
token used.  `hash` stands for the scrypt password hasher. -/
def resetPasswordRoute (s : DB) (token : String) (password : String)
    (now : Nat) (hash : String → String) : ApiResult String × DB :=
  if password.length < 8 then
    (ApiResult.err 400 "Invalid request", s)
  else
    match getPasswordResetTokenByToken s token now with
    | none => (ApiResult.err 400 "Invalid or expired reset token", s)
    | some resetToken =>
      let s1 := updateUserPassword s resetToken.userId (hash password)
      let s2 := markTokenAsUsed s1 resetToken.id
      (ApiResult.ok 200 "Password has been reset successfully", s2)

/-! ## Theorems -/

/-- Claim C2, counterexample.  For birth date 2025-03-01 (a Saturday) the
createBaby path buckets by the week-start Sunday 2025-02-23, so the created
cohort has range (2025-02-01, 2025-03-31) and name "February 2025 Babies",
while the claim demands the range (start of the birth month, end of the
following month) = (2025-03-01, 2025-04-30): no cohort with the claimed
range exists in the post-state. -/
theorem createBaby_bucket_not_birth_month :
    (createBaby emptyDB "baby" ⟨2025, 3, 1⟩ 7).2.cohorts
      = [⟨1, "February 2025 Babies", none, 1, some ⟨2025, 2, 1⟩, some ⟨2025, 3, 31⟩⟩] ∧
    (createBaby emptyDB "baby" ⟨2025, 3, 1⟩ 7).1.cohortId = 1 ∧
    bucketStart ⟨2025, 3, 1⟩ = ⟨2025, 3, 1⟩ ∧
    bucketEnd ⟨2025, 3, 1⟩ = ⟨2025, 4, 30⟩ ∧
    ¬ ∃ c ∈ (createBaby emptyDB "baby" ⟨2025, 3, 1⟩ 7).2.cohorts,
        c.startDate = some (bucketStart ⟨2025, 3, 1⟩)
          ∧ c.endDate = some (bucketEnd ⟨2025, 3, 1⟩) := by
  decide

/-- Claim C2, amended.  For every birth date `d`, `createBaby` buckets by the
week start `w = birthWeekOf d` (the Sunday on or before `d`): the baby is
assigned the cohort resolved by `getOrCreateCohort` for `w`; that cohort\x27s
range is exactly `(startOfMonth w, endOfMonth (addMonths (startOfMonth w) 1))`;
an existing cohort is reused exactly when its stored bounds both equal that
range, and otherwise a cohort named "<Month> <Year> Babies" (after `w`\x27s
month) with exactly that range is appended. -/
theorem createBaby_bucket_range (s : DB) (nm : String) (d : CivilDate) (uid : Nat) :
    ((createBaby s nm d uid).1).birthWeek = birthWeekOf d ∧
    ((createBaby s nm d uid).1).cohortId = (getOrCreateCohort s (birthWeekOf d)).1.id ∧
    (getOrCreateCohort s (birthWeekOf d)).1.startDate = some (bucketStart (birthWeekOf d)) ∧
    (getOrCreateCohort s (birthWeekOf d)).1.endDate = some (bucketEnd (birthWeekOf d)) ∧
    ((s.cohorts.find? (fun c => c.startDate == some (bucketStart (birthWeekOf d)) &&
          c.endDate == some (bucketEnd (birthWeekOf d)))
        = some (getOrCreateCohort s (birthWeekOf d)).1
        ∧ (getOrCreateCohort s (birthWeekOf d)).2 = s)
      ∨ (s.cohorts.find? (fun c => c.startDate == some (bucketStart (birthWeekOf d)) &&
            c.endDate == some (bucketEnd (birthWeekOf d)))
          = none
          ∧ (getOrCreateCohort s (birthWeekOf d)).1.name
              = bucketName (bucketStart (birthWeekOf d))
          ∧ (getOrCreateCohort s (birthWeekOf d)).2.cohorts
              = s.cohorts ++ [(getOrCreateCohort s (birthWeekOf d)).1])) := by
  cases hfind : s.cohorts.find? (fun c => c.startDate == some (bucketStart (birthWeekOf d)) &&
      c.endDate == some (bucketEnd (birthWeekOf d))) with
  | some c =>
    have hp := List.find?_some hfind
    simp only [Bool.and_eq_true, beq_iff_eq] at hp
    refine ⟨?_, ?_, ?_, ?_, Or.inl ⟨?_, ?_⟩⟩ <;>
      simp [createBaby, getOrCreateCohort, hfind, hp.1, hp.2]
  | none =>
    refine ⟨?_, ?_, ?_, ?_, Or.inr ⟨rfl, ?_, ?_⟩⟩ <;>
      simp [createBaby, getOrCreateCohort, hfind]

/-- Claim C9.  Birth-week bucketing is deterministic and idempotent under
sequential execution: if two birth dates map to the same
(start-of-month, end-of-next-month) range, then after `getOrCreateCohort`
has resolved the first, resolving the second returns the very same cohort
(same id) and leaves the store unchanged, so the cohort is created at most
once and every repeated call resolves to the same id. -/
theorem getOrCreateCohort_deterministic (s : DB) (d1 d2 : CivilDate)
    (hrange : (bucketStart d1, bucketEnd d1) = (bucketStart d2, bucketEnd d2)) :
    (getOrCreateCohort (getOrCreateCohort s d1).2 d2).1 = (getOrCreateCohort s d1).1 ∧
    (getOrCreateCohort (getOrCreateCohort s d1).2 d2).2 = (getOrCreateCohort s d1).2 ∧
    (getOrCreateCohort (getOrCreateCohort s d1).2 d2).1.id = (getOrCreateCohort s d1).1.id := by
  have h1 : bucketStart d1 = bucketStart d2 := congrArg Prod.fst hrange
  have h2 : bucketEnd d1 = bucketEnd d2 := congrArg Prod.snd hrange
  cases hfind : s.cohorts.find? (fun c => c.startDate == some (bucketStart d1) &&
      c.endDate == some (bucketEnd d1)) with
  | some c =>
    simp [getOrCreateCohort, ← h1, ← h2, hfind]
  | none =>
    simp [getOrCreateCohort, ← h1, ← h2, hfind, List.find?_append]

/-- Claim C9, witness at a concrete input: 2025-03-09 and 2025-03-20 map to
the same range, and the second resolution reuses the cohort created by the
first. -/
theorem getOrCreateCohort_deterministic_witness :
    (getOrCreateCohort (getOrCreateCohort emptyDB ⟨2025, 3, 9⟩).2 ⟨2025, 3, 20⟩).1
      = (getOrCreateCohort emptyDB ⟨2025, 3, 9⟩).1 ∧
    (getOrCreateCohort (getOrCreateCohort emptyDB ⟨2025, 3, 9⟩).2 ⟨2025, 3, 20⟩).2
      = (getOrCreateCohort emptyDB ⟨2025, 3, 9⟩).2 ∧
    (getOrCreateCohort (getOrCreateCohort emptyDB ⟨2025, 3, 9⟩).2 ⟨2025, 3, 20⟩).1.id
      = (getOrCreateCohort emptyDB ⟨2025, 3, 9⟩).1.id :=
  getOrCreateCohort_deterministic emptyDB ⟨2025, 3, 9⟩ ⟨2025, 3, 20⟩ (by decide)

/-- Claim C1.  `createCohort(name, description, creatorId)` is a single state
transition that appends the cohort row and exactly one membership row with
role "moderator" for the creator and the new cohort id; provided the new
cohort id is fresh (no membership row references it yet, which holds in
every store whose membership rows reference allocated cohort ids), the
post-state contains exactly one such moderator membership.  Because the
transition is atomic in the sequential model, no reachable state exposes the
cohort insertion without the membership insertion.  `POST /api/cohorts`
answers 201 with exactly this transition applied for the session user. -/
theorem createCohort_creator_moderator (s : DB) (name : String)
    (description : Option String) (creatorId : Nat)
    (hfresh : ∀ m ∈ s.memberships, m.cohortId ≠ s.nextCohortId) :
    (createCohort s name description creatorId).1.id = s.nextCohortId ∧
    (createCohort s name description creatorId).1.creatorId = creatorId ∧
    (createCohort s name description creatorId).2.cohorts
      = s.cohorts ++ [(createCohort s name description creatorId).1] ∧
    (createCohort s name description creatorId).2.memberships
      = s.memberships ++ [⟨s.nextMembershipId, creatorId, s.nextCohortId, "moderator"⟩] ∧
    ((createCohort s name description creatorId).2.memberships.countP (fun m =>
        m.cohortId == (createCohort s name description creatorId).1.id
          && m.userId == creatorId && m.role == "moderator")) = 1 ∧
    (∀ requester : User,
      postCohortsRoute s requester name description
        = (ApiResult.ok 201 (createCohort s name description requester.id).1,
           (createCohort s name description requester.id).2)) := by
  have hzero : s.memberships.countP (fun m =>
      m.cohortId == s.nextCohortId && m.userId == creatorId
        && m.role == "moderator") = 0 := by
    rw [List.countP_eq_zero]
    intro a ha
    simp only [Bool.and_eq_true, beq_iff_eq, not_and]
    intro h1
    exact absurd h1.1 (hfresh a ha)
  refine ⟨rfl, rfl, ?_, ?_, ?_, fun requester => rfl⟩
  · simp [createCohort, createCohortMembership]
  · simp [createCohort, createCohortMembership]
  · simp [createCohort, createCohortMembership, List.countP_append, hzero]

/-- Claim C1, witness: creating "NYC Parents" for user 7 on the empty store
yields exactly one moderator membership for user 7 on the new cohort. -/
theorem createCohort_creator_moderator_witness :
    (createCohort emptyDB "NYC Parents" none 7).1.id = emptyDB.nextCohortId ∧
    (createCohort emptyDB "NYC Parents" none 7).1.creatorId = 7 ∧
    (createCohort emptyDB "NYC Parents" none 7).2.cohorts
      = emptyDB.cohorts ++ [(createCohort emptyDB "NYC Parents" none 7).1] ∧
    (createCohort emptyDB "NYC Parents" none 7).2.memberships
      = emptyDB.memberships
          ++ [⟨emptyDB.nextMembershipId, 7, emptyDB.nextCohortId, "moderator"⟩] ∧
    ((createCohort emptyDB "NYC Parents" none 7).2.memberships.countP (fun m =>
        m.cohortId == (createCohort emptyDB "NYC Parents" none 7).1.id
          && m.userId == 7 && m.role == "moderator")) = 1 ∧
    (∀ requester : User,
      postCohortsRoute emptyDB requester "NYC Parents" none
        = (ApiResult.ok 201 (createCohort emptyDB "NYC Parents" none requester.id).1,
           (createCohort emptyDB "NYC Parents" none requester.id).2)) :=
  createCohort_creator_moderator emptyDB "NYC Parents" none 7 (by simp [emptyDB])

/-- Claim C4.  A requester who is not a global admin and not a moderator of
the target cohort receives 403 Forbidden from all three membership-mutation
routes, and the store is left unchanged.  For the update route the body role
must be one of the two enum values (otherwise the handler answers 400 before
any check) and for the id-based routes the membership must exist (otherwise
404), which is what makes its cohort the target cohort. -/
theorem nonmoderator_membership_mutations_forbidden
    (s : DB) (requester : User)
    (hadmin : requester.role ≠ "admin")
    (cohortId userId : Nat) (role : Option String)
    (hmod1 : isCohortModerator s requester.id cohortId = false)
    (membershipId : Nat) (m : CohortMembership)
    (hmem : getCohortMembershipById s membershipId = some m)
    (hmod2 : isCohortModerator s requester.id m.cohortId = false)
    (r : String) (hr : r = "member" ∨ r = "moderator") :
    postCohortMembershipRoute s requester cohortId userId role
      = (ApiResult.err 403 "Only moderators and admins can add members to a cohort", s) ∧
    putCohortMembershipRoute s requester membershipId (some r)
      = (ApiResult.err 403 "Only moderators and admins can update membership roles", s) ∧
    deleteCohortMembershipRoute s requester membershipId
      = (ApiResult.err 403 "Only moderators and admins can remove members from a cohort", s) := by
  refine ⟨?_, ?_, ?_⟩
  · simp [postCohortMembershipRoute, hmod1, hadmin]
  · rcases hr with rfl | rfl <;> simp [putCohortMembershipRoute, hmem, hmod2, hadmin]
  · simp [deleteCohortMembershipRoute, hmem, hmod2, hadmin]

/-- Membership fixture for the forbidden-mutation witness: membership row 1
makes user 3 a plain member of cohort 1. -/
def dbMember3 : DB :=
  { emptyDB with memberships := [⟨1, 3, 1, "member"⟩] }

/-- The non-admin, non-moderator requester used in witnesses. -/
def bobUser : User :=
  ⟨2, "bob", "hashed-pw", "Bob B", "bob@example.com", "user"⟩

/-- Claim C4, witness: Bob (global role "user", no moderator membership) gets
403 from all three membership-mutation routes on a store containing
membership 1 (user 3, cohort 1), which stays unchanged. -/
theorem nonmoderator_membership_mutations_forbidden_witness :
    postCohortMembershipRoute dbMember3 bobUser 1 4 (some "member")
      = (ApiResult.err 403 "Only moderators and admins can add members to a cohort",
         dbMember3) ∧
    putCohortMembershipRoute dbMember3 bobUser 1 (some "moderator")
      = (ApiResult.err 403 "Only moderators and admins can update membership roles",
         dbMember3) ∧
    deleteCohortMembershipRoute dbMember3 bobUser 1
      = (ApiResult.err 403 "Only moderators and admins can remove members from a cohort",
         dbMember3) :=
  nonmoderator_membership_mutations_forbidden dbMember3 bobUser (by decide)
    1 4 (some "member") (by decide) 1 ⟨1, 3, 1, "member"⟩ (by decide) (by decide)
    "moderator" (Or.inr rfl)

/-- Claim C10.  `isCohortModerator` consults only membership rows: a user
whose global role is "admin" but who holds no moderator membership for the
cohort gets `false` from it (and from `GET /api/cohorts/:id/is-moderator`),
even though the same admin passes the authorization check of the
membership-mutation routes (here `POST /api/cohort-membership`, which
answers 201 for the admin instead of 403). -/
theorem isCohortModerator_membership_rows_only
    (s : DB) (requester : User) (cohortId : Nat)
    (hadmin : requester.role = "admin")
    (hnomod : ∀ m ∈ s.memberships,
      ¬(m.userId = requester.id ∧ m.cohortId = cohortId ∧ m.role = "moderator")) :
    isCohortModerator s requester.id cohortId = false ∧
    getIsModeratorRoute s requester cohortId = (ApiResult.ok 200 false, s) ∧
    (∀ targetUserId : Nat,
      postCohortMembershipRoute s requester cohortId targetUserId none
        = (ApiResult.ok 201 (createCohortMembership s cohortId targetUserId "member").1,
           (createCohortMembership s cohortId targetUserId "member").2)) := by
  have hfind : s.memberships.find? (fun m =>
      m.userId == requester.id && m.cohortId == cohortId
        && m.role == "moderator") = none := by
    rw [List.find?_eq_none]
    intro x hx
    simp only [Bool.and_eq_true, beq_iff_eq, not_and]
    intro h1 h2
    exact hnomod x hx ⟨h1.1, h1.2, h2⟩
  refine ⟨?_, ?_, ?_⟩
  · simp [isCohortModerator, hfind]
  · simp [getIsModeratorRoute, isCohortModerator, hfind]
  · intro targetUserId
    simp [postCohortMembershipRoute, isCohortModerator, hfind, hadmin]

/-- The global admin used in witnesses; holds no membership rows. -/
def rootAdmin : User :=
  ⟨9, "root", "hashed-pw", "Root R", "root@example.com", "admin"⟩

/-- Claim C10, witness: on the store with membership 1 (user 3, member of
cohort 1), the admin user 9 is reported not a moderator of cohort 1, yet the
add-member route accepts their request with 201. -/
theorem isCohortModerator_membership_rows_only_witness :
    isCohortModerator dbMember3 rootAdmin.id 1 = false ∧
    getIsModeratorRoute dbMember3 rootAdmin 1 = (ApiResult.ok 200 false, dbMember3) ∧
    (∀ targetUserId : Nat,
      postCohortMembershipRoute dbMember3 rootAdmin 1 targetUserId none
        = (ApiResult.ok 201 (createCohortMembership dbMember3 1 targetUserId "member").1,
           (createCohortMembership dbMember3 1 targetUserId "member").2)) :=
  isCohortModerator_membership_rows_only dbMember3 rootAdmin 1 (by decide) (by decide)

/-- Claim C6.  `PUT /api/posts/:id` and `DELETE /api/posts/:id` succeed only
when the requester is the post\x27s author; when no post has the id or every
post with the id belongs to a different user, both answer the single
conflated 404 not-found-or-forbidden message (identical for the two failure
causes) and leave the store unchanged.  The update route additionally
requires non-blank content (a blank body is rejected with 400 before the
ownership check, hence the non-blank hypothesis). -/
theorem post_mutations_author_only (s : DB) (requester : User) :
    (∀ (postId : Nat) (content : String) (photoUrl : Option (Option String))
        (p : Post) (s1 : DB),
        putPostRoute s requester postId content photoUrl = (ApiResult.ok 200 p, s1) →
        ∃ q ∈ s.posts, q.id = postId ∧ q.userId = requester.id) ∧
    (∀ (postId : Nat) (v : Bool) (s1 : DB),
        deletePostRoute s requester postId = (ApiResult.ok 200 v, s1) →
        ∃ q ∈ s.posts, q.id = postId ∧ q.userId = requester.id) ∧
    (∀ (postId : Nat) (content : String) (photoUrl : Option (Option String)),
        jsTrim content ≠ "" →
        (∀ q ∈ s.posts, q.id = postId → q.userId ≠ requester.id) →
        putPostRoute s requester postId content photoUrl
          = (ApiResult.err 404
              "Post not found or you don\x27t have permission to edit it", s)) ∧
    (∀ postId : Nat,
        (∀ q ∈ s.posts, q.id = postId → q.userId ≠ requester.id) →
        deletePostRoute s requester postId
          = (ApiResult.err 404
              "Post not found or you don\x27t have permission to delete it", s)) := by
  refine ⟨?_, ?_, ?_, ?_⟩
  · intro postId content photoUrl p s1 hok
    cases hget : getPost s postId with
    | none =>
      simp [putPostRoute, updatePost, hget] at hok
      split at hok <;> simp_all
    | some q =>
      by_cases hown : q.userId = requester.id
      · refine ⟨q, List.mem_of_find?_eq_some hget, ?_, hown⟩
        have := List.find?_some hget
        simpa using this
      · simp [putPostRoute, updatePost, hget, hown] at hok
        split at hok <;> simp_all
  · intro postId v s1 hok
    cases hget : getPost s postId with
    | none => simp [deletePostRoute, deletePost, hget] at hok
    | some q =>
      by_cases hown : q.userId = requester.id
      · refine ⟨q, List.mem_of_find?_eq_some hget, ?_, hown⟩
        have := List.find?_some hget
        simpa using this
      · simp [deletePostRoute, deletePost, hget, hown] at hok
  · intro postId content photoUrl htrim hnot
    have hcond : (jsTrim content == "") = false := by
      simpa using htrim
    cases hget : getPost s postId with
    | none => simp [putPostRoute, hcond, updatePost, hget]
    | some q =>
      have hq : q.userId ≠ requester.id := by
        have hmem := List.mem_of_find?_eq_some hget
        have hid := List.find?_some hget
        exact hnot q hmem (by simpa using hid)
      simp [putPostRoute, hcond, updatePost, hget, hq]
  · intro postId hnot
    cases hget : getPost s postId with
    | none => simp [deletePostRoute, deletePost, hget]
    | some q =>
      have hq : q.userId ≠ requester.id := by
        have hmem := List.mem_of_find?_eq_some hget
        have hid := List.find?_some hget
        exact hnot q hmem (by simpa using hid)
      simp [deletePostRoute, deletePost, hget, hq]

/-- Post fixture for the author-only witness: post 1 in cohort 1 authored by
user 5. -/
def dbPost5 : DB :=
  { emptyDB with posts := [⟨1, 5, 1, "Hello", none⟩], nextPostId := 2 }

/-- Claim C6, witness: Bob (user 2) editing or deleting user 5\x27s post 1
receives the conflated 404 message and the store is unchanged. -/
theorem post_mutations_author_only_witness :
    putPostRoute dbPost5 bobUser 1 "edited" none
      = (ApiResult.err 404
          "Post not found or you don\x27t have permission to edit it", dbPost5) ∧
    deletePostRoute dbPost5 bobUser 1
      = (ApiResult.err 404
          "Post not found or you don\x27t have permission to delete it", dbPost5) :=
  ⟨(post_mutations_author_only dbPost5 bobUser).2.2.1 1 "edited" none
      (by decide) (by decide),
   (post_mutations_author_only dbPost5 bobUser).2.2.2 1 (by decide)⟩

/-- Claim C7.  Sequential upvote toggle semantics for a (user, post) pair:
`POST /api/upvotes` fails with the 409 already-upvoted error exactly when a
row for the pair exists (leaving the store unchanged); `DELETE
/api/posts/:id/upvotes` fails with the 404 not-upvoted error exactly when no
row exists; when no row exists, upvoting stores exactly one row for the
pair, a second upvote answers 409 without change, and a subsequent remove
succeeds and returns the pair\x27s row count to zero. -/
theorem upvote_toggle (s : DB) (requester : User) (postId : Nat) :
    (hasUserUpvoted s postId requester.id = true →
      postUpvotesRoute s requester postId
        = (ApiResult.err 409 "You have already upvoted this post", s)) ∧
    (hasUserUpvoted s postId requester.id = false →
      deleteUpvoteRoute s requester postId
        = (ApiResult.err 404 "You have not upvoted this post", s)) ∧
    (hasUserUpvoted s postId requester.id = false →
      s.upvotes.countP (fun v => v.postId == postId && v.userId == requester.id) = 0 ∧
      ∃ (u : Upvote) (s1 : DB),
        postUpvotesRoute s requester postId = (ApiResult.ok 201 u, s1) ∧
        s1.upvotes.countP (fun v => v.postId == postId && v.userId == requester.id) = 1 ∧
        postUpvotesRoute s1 requester postId
          = (ApiResult.err 409 "You have already upvoted this post", s1) ∧
        ∃ s2 : DB,
          deleteUpvoteRoute s1 requester postId = (ApiResult.ok 200 true, s2) ∧
          s2.upvotes.countP
            (fun v => v.postId == postId && v.userId == requester.id) = 0) := by
  refine ⟨?_, ?_, ?_⟩
  · intro h
    simp [postUpvotesRoute, createUpvote, h]
  · intro h
    simp [deleteUpvoteRoute, h]
  · intro h
    have hfind : s.upvotes.find?
        (fun u => u.postId == postId && u.userId == requester.id) = none := by
      have h2 := h
      rw [hasUserUpvoted] at h2
      exact Option.not_isSome_iff_eq_none.mp (by simp [h2])
    have hzero : s.upvotes.countP
        (fun v => v.postId == postId && v.userId == requester.id) = 0 := by
      rw [List.countP_eq_zero]
      exact List.find?_eq_none.mp hfind
    refine ⟨hzero, ⟨s.nextUpvoteId, postId, requester.id⟩,
      { s with upvotes := s.upvotes ++ [⟨s.nextUpvoteId, postId, requester.id⟩],
               nextUpvoteId := s.nextUpvoteId + 1 }, ?_, ?_, ?_, ?_⟩
    · simp [postUpvotesRoute, createUpvote, h]
    · simp [List.countP_append, hzero]
    · have h1 : hasUserUpvoted
          { s with upvotes := s.upvotes ++ [⟨s.nextUpvoteId, postId, requester.id⟩],
                   nextUpvoteId := s.nextUpvoteId + 1 } postId requester.id = true := by
        simp [hasUserUpvoted, List.find?_append, hfind]
      simp [postUpvotesRoute, createUpvote, h1]
    · have h1 : hasUserUpvoted
          { s with upvotes := s.upvotes ++ [⟨s.nextUpvoteId, postId, requester.id⟩],
                   nextUpvoteId := s.nextUpvoteId + 1 } postId requester.id = true := by
        simp [hasUserUpvoted, List.find?_append, hfind]
      refine ⟨{ s with
          upvotes := (s.upvotes ++ [(⟨s.nextUpvoteId, postId, requester.id⟩ : Upvote)]).filter
            (fun u => !(u.postId == postId && u.userId == requester.id)),
          nextUpvoteId := s.nextUpvoteId + 1 }, ?_, ?_⟩
      · simp [deleteUpvoteRoute, h1, removeUpvote]
      · simp [List.countP_filter]

/-- Claim C7, witness: on the empty store Bob cannot remove a missing upvote
on post 1 (404), and upvoting then behaves as one stored row, a 409 on the
second attempt, and a removal back to zero. -/
theorem upvote_toggle_witness :
    (deleteUpvoteRoute emptyDB bobUser 1
      = (ApiResult.err 404 "You have not upvoted this post", emptyDB)) ∧
    (emptyDB.upvotes.countP (fun v => v.postId == 1 && v.userId == bobUser.id) = 0 ∧
      ∃ (u : Upvote) (s1 : DB),
        postUpvotesRoute emptyDB bobUser 1 = (ApiResult.ok 201 u, s1) ∧
        s1.upvotes.countP (fun v => v.postId == 1 && v.userId == bobUser.id) = 1 ∧
        postUpvotesRoute s1 bobUser 1
          = (ApiResult.err 409 "You have already upvoted this post", s1) ∧
        ∃ s2 : DB,
          deleteUpvoteRoute s1 bobUser 1 = (ApiResult.ok 200 true, s2) ∧
          s2.upvotes.countP (fun v => v.postId == 1 && v.userId == bobUser.id) = 0) :=
  ⟨(upvote_toggle emptyDB bobUser 1).2.1 rfl,
   (upvote_toggle emptyDB bobUser 1).2.2 rfl⟩

/-- Claim C3.  A password reset token is consumed at most once under
sequential execution: once `POST /api/reset-password` succeeds with token
`t` (rotating the password and setting the row\x27s `used` flag), any later
call with the same `t` (with a valid-length new password, at any time)
answers 400 "Invalid or expired reset token" and leaves the store unchanged.
The token column is UNIQUE in the schema, giving the no-duplicate
hypothesis. -/
theorem resetPassword_token_single_use
    (s : DB) (t p1 : String) (now : Nat) (hash : String → String)
    (huniq : (s.resetTokens.map (fun r => r.token)).Nodup)
    (m : String) (s1 : DB)
    (hok : resetPasswordRoute s t p1 now hash = (ApiResult.ok 200 m, s1)) :
    ∀ (p2 : String) (now2 : Nat) (hash2 : String → String),
      8 ≤ p2.length →
      resetPasswordRoute s1 t p2 now2 hash2
        = (ApiResult.err 400 "Invalid or expired reset token", s1) := by
  intro p2 now2 hash2 hlen
  by_cases hplen : p1.length < 8
  · simp [resetPasswordRoute, hplen] at hok
  · cases hfind : getPasswordResetTokenByToken s t now with
    | none => simp [resetPasswordRoute, hplen, hfind] at hok
    | some rt =>
      have hfindL : s.resetTokens.find? (fun r =>
          r.token == t && decide (now < r.expiresAt) && r.used == 0) = some rt := by
        rw [getPasswordResetTokenByToken] at hfind
        exact hfind
      have hrtmem : rt ∈ s.resetTokens := List.mem_of_find?_eq_some hfindL
      have hrtprop := List.find?_some hfindL
      simp only [Bool.and_eq_true, beq_iff_eq, decide_eq_true_eq] at hrtprop
      have hrttok : rt.token = t := hrtprop.1.1
      have hs1 : s1 = markTokenAsUsed (updateUserPassword s rt.userId (hash p1)) rt.id := by
        simp [resetPasswordRoute, hplen, hfind] at hok
        exact hok.2.symm
      have hs1tok : s1.resetTokens = s.resetTokens.map (fun r =>
          if r.id == rt.id then { r with used := 1 } else r) := by
        rw [hs1]
        simp [markTokenAsUsed, updateUserPassword]
      have hfind2 : getPasswordResetTokenByToken s1 t now2 = none := by
        rw [getPasswordResetTokenByToken, hs1tok, List.find?_eq_none]
        intro x hx
        obtain ⟨y, hy, hxy⟩ := List.mem_map.mp hx
        by_cases hid : y.id = rt.id
        · have : x = { y with used := 1 } := by
            rw [← hxy]
            simp [hid]
          rw [this]
          simp
        · have hxeq : x = y := by
            rw [← hxy]
            simp [hid]
          rw [hxeq]
          simp only [Bool.and_eq_true, beq_iff_eq, decide_eq_true_eq, not_and]
          intro h1 _
          have : y = rt := List.inj_on_of_nodup_map huniq hy hrtmem (by rw [h1.1, hrttok])
          exact absurd (congrArg PasswordResetToken.id this) hid
      have hnot : ¬ p2.length < 8 := by omega
      simp [resetPasswordRoute, hnot, hfind2]

/-- Identity fixture for the reset-token witness: Alice (user 1) with one
live unused token "tok-a" expiring at time 1000. -/
def dbAliceToken : DB :=
  { emptyDB with
      users := [⟨1, "alice", "old-hash", "Alice A", "alice@example.com", "user"⟩],
      resetTokens := [⟨1, 1, "tok-a", 1000, 0⟩],
      nextTokenId := 2 }

/-- The store after Alice\x27s successful reset with "tok-a". -/
def dbAliceTokenUsed : DB :=
  (resetPasswordRoute dbAliceToken "tok-a" "password1" 0 (fun _ => "new-hash")).2

/-- Claim C3, witness: after the successful reset at time 0, replaying
"tok-a" with a fresh valid password at time 5 fails with the invalid-token
error and changes nothing. -/
theorem resetPassword_token_single_use_witness :
    resetPasswordRoute dbAliceTokenUsed "tok-a" "password2" 5 (fun _ => "other-hash")
      = (ApiResult.err 400 "Invalid or expired reset token", dbAliceTokenUsed) :=
  resetPassword_token_single_use dbAliceToken "tok-a" "password1" 0
    (fun _ => "new-hash") (by decide) "Password has been reset successfully"
    dbAliceTokenUsed rfl "password2" 5 (fun _ => "other-hash") (by decide)

/-- Identity fixture for the forgot-password analysis: a store whose only
account is Alice (user 1, email "alice@example.com"). -/
def dbAlice : DB :=
  { emptyDB with
      users := [⟨1, "alice", "hashed-pw", "Alice A", "alice@example.com", "user"⟩] }

/-- Claim C5.  `POST /api/forgot-password` answers status 200 with the same
generic message whether or not the email has an account, and when it does
the issued token row expires exactly one hour (3600000 ms) after issuance
with `used = 0` — but the handler also places the fresh token in the
response body for existing accounts (the code\x27s own TODO says to email it
instead), so the two responses differ and the caller can distinguish
account existence, contradicting the claim. -/
theorem forgotPassword_response_reveals_account_existence :
    (forgotPasswordRoute dbAlice "alice@example.com" "tok-1" 0).1.status = 200 ∧
    (forgotPasswordRoute dbAlice "missing@example.com" "tok-1" 0).1.status = 200 ∧
    (forgotPasswordRoute dbAlice "alice@example.com" "tok-1" 0).1.message
      = (forgotPasswordRoute dbAlice "missing@example.com" "tok-1" 0).1.message ∧
    (forgotPasswordRoute dbAlice "alice@example.com" "tok-1" 0).1.token = some "tok-1" ∧
    (forgotPasswordRoute dbAlice "missing@example.com" "tok-1" 0).1.token = none ∧
    (forgotPasswordRoute dbAlice "alice@example.com" "tok-1" 0).1
      ≠ (forgotPasswordRoute dbAlice "missing@example.com" "tok-1" 0).1 ∧
    (forgotPasswordRoute dbAlice "alice@example.com" "tok-1" 0).2.resetTokens
      = [⟨1, 1, "tok-1", 0 + 3600000, 0⟩] := by
  refine ⟨rfl, rfl, rfl, rfl, rfl, ?_, rfl⟩
  decide

/-- Claim C8, counterexample.  `POST /api/posts` with whitespace-only
content succeeds: the zod `insertPostSchema` has no emptiness refinement and
the handler performs no blank check, so Bob posting "   " to cohort 1
answers 201 and stores the blank post — the claimed `EmptyContent` failure
does not happen. -/
theorem createPost_accepts_blank_content :
    jsTrim "   " = "" ∧
    postPostsRoute emptyDB bobUser "   " 1 none
      = (ApiResult.ok 201 ⟨1, 2, 1, "   ", none⟩,
         { emptyDB with posts := [⟨1, 2, 1, "   ", none⟩], nextPostId := 2 }) := by
  exact ⟨by decide, rfl⟩

/-- Claim C8, amended.  `POST /api/posts` performs no blank-content
validation: for every content that is blank after trimming, the post is
created anyway and the route answers 201 with the stored row (blank
rejection exists only on the update route). -/
theorem createPost_no_blank_validation
    (s : DB) (requester : User) (content : String) (cohortId : Nat)
    (photoUrl : Option String) (hblank : jsTrim content = "") :
    postPostsRoute s requester content cohortId photoUrl
      = (ApiResult.ok 201 ⟨s.nextPostId, requester.id, cohortId, content, photoUrl⟩,
         { s with
             posts := s.posts
               ++ [⟨s.nextPostId, requester.id, cohortId, content, photoUrl⟩],
             nextPostId := s.nextPostId + 1 }) :=
  rfl

/-- Claim C8, witness for the amended statement: blank content "  " is
accepted on the empty store. -/
theorem createPost_no_blank_validation_witness :
    postPostsRoute emptyDB bobUser "  " 1 none
      = (ApiResult.ok 201 ⟨1, 2, 1, "  ", none⟩,
         { emptyDB with posts := [⟨1, 2, 1, "  ", none⟩], nextPostId := 2 }) :=
  createPost_no_blank_validation emptyDB bobUser "  " 1 none (by decide)

end BabyBrigade
